import Mathlib

/-!
Verification of the realtime-translation backend's orchestration layer:
a shallow embedding of the segmentation policy, the translation gateway's
glossary protection, the per-target TTS pacer, and the subscriber fan-out,
translated from the Python sources under src/backend/app, with theorems
settling the spec's claims about them.
-/

namespace RTApp

/-! ## Segmentation policy — src/backend/app/nlp/segmenter.py

`should_cut_segment(text, silence_ms, max_ms=3000)` returns True when the
text ends with one of `.`, `?`, `!`, or when `silence_ms >= 800`, or when
`silence_ms >= max_ms`.  Text is modelled as a list of characters and
`endswith` as a suffix test.  The Python default `max_ms = 3000` is passed
explicitly at call sites below. -/

def terminalMarks : List Char := ['.', '?', '!']

def should_cut_segment (text : List Char) (silence_ms max_ms : Int) : Bool :=
  if terminalMarks.any (fun p => List.isSuffixOf [p] text) then true
  else if silence_ms ≥ 800 then true
  else if silence_ms ≥ max_ms then true
  else false

/-- The ingest loop's silence clamp, src/backend/app/orchestration/pipeline.py
line 118: `silence_ms = min(2000, silence_ms + elapsed_ms)`. -/
def clampSilence (silence_ms elapsed_ms : Int) : Int :=
  min 2000 (silence_ms + elapsed_ms)

/-! ## Translation gateway — src/backend/app/nlp/translator.py

`translate_texts` sorts the glossary terms longest-first, assigns each the
placeholder `__GLOSSARY_{i}__`, replaces every occurrence of each term by
its placeholder (in placeholder-map insertion order, i.e. by index), sends
the protected texts to the provider, keeps the translation of every
response item that carries a `translations` entry, and replaces the
placeholders back.  Python's `str.replace` replaces all non-overlapping
occurrences left to right without rescanning inserted text; `replaceFuel`
mirrors that for non-empty patterns (every glossary term and every
placeholder used here is non-empty), with the scanned string's length as
structural fuel. -/

def replaceFuel (old new : List Char) : Nat → List Char → List Char
  | _, [] => []
  | 0, s => s
  | fuel + 1, c :: rest =>
    if !old.isEmpty && old.isPrefixOf (c :: rest) then
      new ++ replaceFuel old new fuel ((c :: rest).drop old.length)
    else
      c :: replaceFuel old new fuel rest

/-- Python `s.replace(old, new)` for non-empty `old`. -/
def pyReplace (s old new : List Char) : List Char :=
  replaceFuel old new s.length s

/-- Python's substring test `pat in s`. -/
def containsSub (pat : List Char) : List Char → Bool
  | [] => pat.isEmpty
  | c :: rest => pat.isPrefixOf (c :: rest) || containsSub pat rest

/-- Stable insertion keeping the list sorted by length, descending:
a new element goes after every already-placed element of length ≥ its own. -/
def insertByLenDesc (x : List Char) : List (List Char) → List (List Char)
  | [] => [x]
  | y :: ys => if x.length ≤ y.length then y :: insertByLenDesc x ys else x :: y :: ys

/-- Python `sorted(glossary_terms, key=len, reverse=True)` (a stable sort). -/
def sortByLenDesc (l : List (List Char)) : List (List Char) :=
  l.foldl (fun acc x => insertByLenDesc x acc) []

/-- The placeholder token `__GLOSSARY_{i}__`. -/
def placeholderToken (i : Nat) : List Char :=
  ("__GLOSSARY_" ++ toString i ++ "__").toList

/-- `placeholder_map` as a (placeholder, term) list in index order, which is
the Python dict's insertion (iteration) order. -/
def placeholderMap (glossary : List (List Char)) : List (List Char × List Char) :=
  (sortByLenDesc glossary).enum.map (fun p => (placeholderToken p.1, p.2))

/-- The protection loop: replace each term by its placeholder, in map order. -/
def protectText (pm : List (List Char × List Char)) (t : List Char) : List Char :=
  pm.foldl (fun acc p => pyReplace acc p.2 p.1) t

/-- The restoration loop: replace each placeholder by its term, in map order. -/
def restoreText (pm : List (List Char × List Char)) (t : List Char) : List Char :=
  pm.foldl (fun acc p => pyReplace acc p.1 p.2) t

/-- `translate_texts`, with the external provider abstracted as a function
from the protected texts to the parsed 200-status list payload.  Each
response item is `some t` when it carries a `translations` entry whose
first translation text is `t`, and `none` when the `translations` key is
absent — such items are silently dropped by the comprehension
`[item["translations"][0]["text"] for item in parsed if "translations" in item]`. -/
def translate_texts (texts : List (List Char)) (glossary : List (List Char))
    (provider : List (List Char) → List (Option (List Char))) : List (List Char) :=
  let pm := placeholderMap glossary
  let protectedTexts := texts.map (protectText pm)
  let output := (provider protectedTexts).filterMap id
  output.map (restoreText pm)

/-! ## Target pacer — src/backend/app/orchestration/pipeline.py

Per-target state `_tts_expected_end` / `_tts_last_duration` (both
`defaultdict(float)`, so 0.0 before the first job) and the per-job wait
computed at lines 162–165.  Wall-clock seconds are modelled as rationals. -/

def TTS_LEAD_TIME_SECONDS : ℚ := 3 / 2

structure PacerState where
  expectedEnd : ℚ
  lastDuration : ℚ
deriving DecidableEq

/-- State of a target before its first job: `defaultdict(float)` yields 0.0. -/
def pacerStart : PacerState := ⟨0, 0⟩

/-- `lead_time = min(_tts_last_duration.get(target, 0.0), TTS_LEAD_TIME_SECONDS)` -/
def leadTime (st : PacerState) : ℚ :=
  min st.lastDuration TTS_LEAD_TIME_SECONDS

/-- `wait_for = max(0.0, expected_end - lead_time - now)` -/
def waitFor (st : PacerState) (now : ℚ) : ℚ :=
  max 0 (st.expectedEnd - leadTime st - now)

/-- The worker sleeps `waitFor` before starting synthesis, so synthesis of a
job dequeued at `now` starts at `now + waitFor st now`. -/
def synthStartTime (st : PacerState) (now : ℚ) : ℚ :=
  now + waitFor st now

/-- Lines 218–219: `_tts_expected_end[target] = send_ts + duration_sec;
_tts_last_duration[target] = duration_sec`. -/
def updateAfterJob (send_ts duration_sec : ℚ) : PacerState :=
  ⟨send_ts + duration_sec, duration_sec⟩

/-- Line 217: `duration_sec = len(pcm_bytes) / float(rate * bytes_per_sample)
if pcm_bytes else 0.0`. -/
def computedDurationSec (pcmLen sampleRate bytesPerSample : Nat) : ℚ :=
  if pcmLen = 0 then 0 else (pcmLen : ℚ) / ((sampleRate : ℚ) * (bytesPerSample : ℚ))

def BYTES_PER_SAMPLE : Nat := 2

/-! ## Worker trace — the sequence of externally visible steps of
`_tts_worker` while draining its FIFO queue.  Per job the worker sends the
metadata record to the subscribers (lines 184–192), then synthesizes
(line 196), then sends the audio bytes (lines 242–248); jobs are dequeued
one at a time by the single worker task, in queue (enqueue) order. -/

structure SynthJob where
  session_id : String
  chunk_id : String
  text : String
deriving DecidableEq

inductive PacerEvent where
  | metaSent (chunk_id : String)
  | synthesized (chunk_id : String)
  | audioSent (chunk_id : String)
deriving DecidableEq

def jobEvents (j : SynthJob) : List PacerEvent :=
  [.metaSent j.chunk_id, .synthesized j.chunk_id, .audioSent j.chunk_id]

def workerTrace : List SynthJob → List PacerEvent
  | [] => []
  | j :: rest => jobEvents j ++ workerTrace rest

/-! ## Metadata record — lines 173–182 of pipeline.py.  The record is built
before synthesis, with `"duration_sec": 0.0` written literally. -/

structure ChunkMeta where
  session_id : String
  chunk_id : String
  target : String
  text : String
  timestamp : ℚ
  duration_sec : ℚ
deriving DecidableEq

def mkChunkMeta (session_id chunk_id target text : String) (send_ts : ℚ) : ChunkMeta :=
  ⟨session_id, chunk_id, target, text, send_ts, 0⟩

/-! ## Subscriber fan-out — lines 183–192 and 242–248 of pipeline.py.

A connection is modelled by whether its metadata send and its audio send
would succeed.  The metadata loop collects the successful connections into
`alive` (order preserved) and stores `alive` into the registry; the audio
loop sends to every member of `alive`, logging failures without removing
anyone, and stores the same `alive` again. -/

structure Conn where
  id : Nat
  metaOk : Bool
  audioOk : Bool
deriving DecidableEq

/-- The `alive` list after the metadata loop. -/
def metaSurvivors (clients : List Conn) : List Conn :=
  clients.filter (fun c => c.metaOk)

/-- The registry entry for (session, target) after one broadcast: both
registry updates store `alive`, which the audio loop never shrinks. -/
def registryAfterBroadcast (clients : List Conn) : List Conn :=
  metaSurvivors clients

/-- The connections that actually receive the audio payload: members of
`alive` whose `send_bytes` succeeds. -/
def audioRecipients (clients : List Conn) : List Conn :=
  (metaSurvivors clients).filter (fun c => c.audioOk)

/-- The externally visible actions of one `_tts_worker` iteration, as a
function of the job's translated text, the registered clients and the
number of PCM bytes the provider returns.  `stream_pcm` is called at line
196 with no guard on the text, and the metadata loop at lines 184–191 runs
whenever `SEND_WS_AUDIO` is set, also with no guard on the text; the audio
send at line 242 additionally requires a non-empty `alive` and non-empty
audio. -/
structure JobActions where
  providerInvoked : Bool
  metaBroadcast : Bool
  audioBroadcast : Bool
deriving DecidableEq

def runTtsJob (sendWsAudio : Bool) (translated : List Char) (clients : List Conn)
    (pcmLen : Nat) : JobActions :=
  ⟨true,
   sendWsAudio && !clients.isEmpty,
   sendWsAudio && !(metaSurvivors clients).isEmpty && !(decide (pcmLen = 0))⟩

/-! ## Session target resolution — pipeline.py line 78:
`target = meta.get("target") or (meta.get("targets", [])[:1] or [TARGET_LANG])[0]`.
`meta.get("target")` is falsy when absent or the empty string; the slice
`[:1]` keeps only the first element of `targets`; `TARGET_LANG` defaults to
"hi-IN" (config.py line 13).  `handle_session` resolves a single target and
passes it to every `process_segment` call (line 127). -/

def TARGET_LANG : String := "hi-IN"

def fallbackTarget (metaTargets : List String) : String :=
  match metaTargets with
  | [] => TARGET_LANG
  | t :: _ => t

def resolveTarget (metaTarget : Option String) (metaTargets : List String) : String :=
  match metaTarget with
  | some t => if t = "" then fallbackTarget metaTargets else t
  | none => fallbackTarget metaTargets

/-- The list of targets a session's segments are dispatched for. -/
def sessionDispatchTargets (metaTarget : Option String) (metaTargets : List String) :
    List String :=
  [resolveTarget metaTarget metaTargets]

/-! ## Theorems -/

/-- C3 counterexample: the claim says `should_cut_segment` returns true for
every text ending in `।` (among the six listed marks) regardless of silence,
but the code only tests `.`, `?`, `!`: on the Devanagari sentence
`नमस्ते।` with zero silence and the default `max_ms = 3000` it returns
false. -/
theorem C3_counterexample :
    List.isSuffixOf ['।'] "नमस्ते।".toList = true ∧
    should_cut_segment "नमस्ते।".toList 0 3000 = false := by
  decide

/-- C3 amended: `should_cut_segment` returns true for every text ending in
one of the marks it actually tests — `.`, `?`, `!` — regardless of the
silence value and of `max_ms`; the marks `।`, `॥`, `…` do not trigger the
terminal-mark branch. -/
theorem C3_terminal_mark_cuts (text : List Char) (silence_ms max_ms : Int)
    (c : Char) (hc : c ∈ terminalMarks) (hend : List.isSuffixOf [c] text = true) :
    should_cut_segment text silence_ms max_ms = true := by
  have hany : terminalMarks.any (fun p => List.isSuffixOf [p] text) = true :=
    List.any_eq_true.mpr ⟨c, hc, hend⟩
  simp [should_cut_segment, hany]

theorem C3_terminal_mark_cuts_witness :
    should_cut_segment "ok.".toList (-500) 3000 = true :=
  C3_terminal_mark_cuts "ok.".toList (-500) 3000 '.' (by decide) (by decide)

/-- C10: for any `max_ms ≥ 800` the `max_ms` parameter is redundant —
`should_cut_segment text silence max_ms = should_cut_segment text silence 800` —
because the `silence_ms ≥ 800` branch is tested first; moreover the ingest
loop clamps silence at 2000 ms, so with the default `max_ms = 3000` the
`silence_ms ≥ max_ms` branch can never fire. -/
theorem C10_maxms_redundant (text : List Char) (silence_ms max_ms s e : Int)
    (h : 800 ≤ max_ms) :
    should_cut_segment text silence_ms max_ms = should_cut_segment text silence_ms 800 ∧
    ¬ (3000 ≤ clampSilence s e) := by
  constructor
  · unfold should_cut_segment
    split_ifs <;> first | rfl | omega
  · unfold clampSilence
    omega

theorem C10_maxms_redundant_witness :
    should_cut_segment "abc".toList 900 2500 = should_cut_segment "abc".toList 900 800 ∧
    ¬ (3000 ≤ clampSilence 0 5000) :=
  C10_maxms_redundant "abc".toList 900 2500 0 5000 (by decide)

/-- C1: the pacer's wait is `max(0, expectedEnd − min(lastDuration, 1.5) − now)`;
a target's first job (state `pacerStart`, both fields 0.0) waits 0 whenever
`now ≥ 0`; and after a prior clip of duration 2.0 s sent at `ts`, the next
job's synthesis start time is never before `ts + 0.5`. -/
theorem C1_pacer_wait (st : PacerState) (now ts : ℚ) (hnow : 0 ≤ now) :
    waitFor st now = max 0 (st.expectedEnd - min st.lastDuration (3 / 2) - now) ∧
    waitFor pacerStart now = 0 ∧
    ts + 1 / 2 ≤ synthStartTime (updateAfterJob ts 2) now := by
  refine ⟨rfl, ?_, ?_⟩
  · have hmin : min (0 : ℚ) (3 / 2) = 0 := by norm_num
    have hle : (0 : ℚ) - min 0 (3 / 2) - now ≤ 0 := by rw [hmin]; linarith
    calc waitFor pacerStart now = max 0 ((0 : ℚ) - min 0 (3 / 2) - now) := rfl
      _ = 0 := max_eq_left hle
  · have hmin : min (2 : ℚ) (3 / 2) = 3 / 2 := by norm_num
    have hdef : synthStartTime (updateAfterJob ts 2) now
        = now + max 0 (ts + 2 - min 2 (3 / 2) - now) := rfl
    rw [hdef, hmin]
    have h2 : ts + 1 / 2 - now ≤ max 0 (ts + 2 - 3 / 2 - now) :=
      le_trans (by linarith) (le_max_right _ _)
    linarith

theorem C1_pacer_wait_witness :
    waitFor ⟨5, 1⟩ 2 = max 0 ((5 : ℚ) - min 1 (3 / 2) - 2) ∧
    waitFor pacerStart 2 = 0 ∧
    (7 : ℚ) + 1 / 2 ≤ synthStartTime (updateAfterJob 7 2) 2 :=
  C1_pacer_wait ⟨5, 1⟩ 2 7 (by norm_num)

/-- The worker trace of a job list places job `i`'s three events at
positions `3i`, `3i+1`, `3i+2`. -/
theorem workerTrace_getElem (jobs : List SynthJob) (i r : Nat) (hi : i < jobs.length)
    (hr : r < 3) :
    (workerTrace jobs)[3 * i + r]? = (jobEvents (jobs.get ⟨i, hi⟩))[r]? := by
  induction jobs generalizing i with
  | nil => exact absurd hi (Nat.not_lt_zero i)
  | cons j rest ih =>
    cases i with
    | zero =>
      have hlt : 3 * 0 + r < (jobEvents j).length := by
        simp only [jobEvents, List.length_cons, List.length_nil]
        omega
      calc (workerTrace (j :: rest))[3 * 0 + r]?
          = (jobEvents j ++ workerTrace rest)[3 * 0 + r]? := rfl
        _ = (jobEvents j)[3 * 0 + r]? := List.getElem?_append_left hlt
        _ = (jobEvents j)[r]? := by norm_num
    | succ i' =>
      have hge : (jobEvents j).length ≤ 3 * (i' + 1) + r := by
        simp only [jobEvents, List.length_cons, List.length_nil]
        omega
      have hi' : i' < rest.length := by
        simp only [List.length_cons] at hi
        omega
      calc (workerTrace (j :: rest))[3 * (i' + 1) + r]?
          = (jobEvents j ++ workerTrace rest)[3 * (i' + 1) + r]? := rfl
        _ = (workerTrace rest)[3 * (i' + 1) + r - (jobEvents j).length]? :=
            List.getElem?_append_right hge
        _ = (workerTrace rest)[3 * i' + r]? := by
            congr 1
            simp only [jobEvents, List.length_cons, List.length_nil]
            omega
        _ = (jobEvents (rest.get ⟨i', hi'⟩))[r]? := ih i' hi'

/-- C2: the single worker drains its target's FIFO queue one job at a time,
so for any two jobs `i < j` on the same target, job `i`'s metadata and
audio broadcasts sit at trace positions `3i` and `3i+2`, job `j`'s
synthesis and broadcasts at `3j+1` and `3j+2`, and `3i+2 < 3j+1 < 3j+2`:
all of A's delivery precedes B's synthesis, which precedes B's broadcast —
no reordering across segments for one language. -/
theorem C2_fifo_order (jobs : List SynthJob) (i j : Nat) (hij : i < j)
    (hj : j < jobs.length) :
    (workerTrace jobs)[3 * i]?
      = some (.metaSent ((jobs.get ⟨i, lt_trans hij hj⟩).chunk_id)) ∧
    (workerTrace jobs)[3 * i + 2]?
      = some (.audioSent ((jobs.get ⟨i, lt_trans hij hj⟩).chunk_id)) ∧
    (workerTrace jobs)[3 * j + 1]?
      = some (.synthesized ((jobs.get ⟨j, hj⟩).chunk_id)) ∧
    (workerTrace jobs)[3 * j + 2]?
      = some (.audioSent ((jobs.get ⟨j, hj⟩).chunk_id)) ∧
    3 * i + 2 < 3 * j + 1 ∧ 3 * j + 1 < 3 * j + 2 :=
  ⟨workerTrace_getElem jobs i 0 (lt_trans hij hj) (by omega),
   workerTrace_getElem jobs i 2 (lt_trans hij hj) (by omega),
   workerTrace_getElem jobs j 1 hj (by omega),
   workerTrace_getElem jobs j 2 hj (by omega),
   by omega, by omega⟩

theorem C2_fifo_order_witness :
    (workerTrace [⟨"S1", "A", "a"⟩, ⟨"S1", "B", "b"⟩])[3 * 0]? = some (.metaSent "A") ∧
    (workerTrace [⟨"S1", "A", "a"⟩, ⟨"S1", "B", "b"⟩])[3 * 0 + 2]? = some (.audioSent "A") ∧
    (workerTrace [⟨"S1", "A", "a"⟩, ⟨"S1", "B", "b"⟩])[3 * 1 + 1]? = some (.synthesized "B") ∧
    (workerTrace [⟨"S1", "A", "a"⟩, ⟨"S1", "B", "b"⟩])[3 * 1 + 2]? = some (.audioSent "B") ∧
    3 * 0 + 2 < 3 * 1 + 1 ∧ 3 * 1 + 1 < 3 * 1 + 2 :=
  C2_fifo_order [⟨"S1", "A", "a"⟩, ⟨"S1", "B", "b"⟩] 0 1 (by omega) (by decide)

/-- C6 counterexample: the claim says the metadata record delivered to
subscribers carries the duration computed from the produced audio, but the
code writes `"duration_sec": 0.0` literally (pipeline.py line 180) and
sends the record before synthesis: for a job whose audio is 48000 bytes at
24000 Hz × 2 bytes/sample the computed duration is 1 s while the delivered
record says 0. -/
theorem C6_counterexample :
    (mkChunkMeta "S1" "c1" "hi-IN" "नमस्ते।" 10).duration_sec = 0 ∧
    computedDurationSec 48000 24000 BYTES_PER_SAMPLE = 1 ∧
    (mkChunkMeta "S1" "c1" "hi-IN" "नमस्ते।" 10).duration_sec
      ≠ computedDurationSec 48000 24000 BYTES_PER_SAMPLE := by
  refine ⟨rfl, ?_, ?_⟩ <;> norm_num [computedDurationSec, mkChunkMeta, BYTES_PER_SAMPLE]

/-- C6 amended: the metadata record delivered to each subscriber always
carries `duration_sec = 0` (a placeholder), and within one job's trace the
metadata send precedes the audio send; the duration computed from the
produced audio (size / (rate × bytes per sample)) is used only to advance
the pacer state `(expectedEnd, lastDuration)`. -/
theorem C6_meta_duration_zero (sid cid tgt txt : String) (ts : ℚ) (n sr : Nat)
    (job : SynthJob) :
    (mkChunkMeta sid cid tgt txt ts).duration_sec = 0 ∧
    (jobEvents job)[0]? = some (.metaSent job.chunk_id) ∧
    (jobEvents job)[2]? = some (.audioSent job.chunk_id) ∧ (0 : Nat) < 2 ∧
    updateAfterJob ts (computedDurationSec n sr BYTES_PER_SAMPLE)
      = ⟨ts + computedDurationSec n sr BYTES_PER_SAMPLE,
         computedDurationSec n sr BYTES_PER_SAMPLE⟩ :=
  ⟨rfl, rfl, rfl, by omega, rfl⟩

/-- C7 counterexample: the claim says a connection whose audio send fails is
excluded from the surviving set, but the audio loop (pipeline.py lines
242–248) only logs failures: a connection that accepts the metadata send
and fails the audio send remains in the registry after the broadcast. -/
theorem C7_counterexample :
    (⟨2, true, false⟩ : Conn) ∈ registryAfterBroadcast [⟨1, true, true⟩, ⟨2, true, false⟩] ∧
    (⟨2, true, false⟩ : Conn) ∉ audioRecipients [⟨1, true, true⟩, ⟨2, true, false⟩] := by
  decide

/-- C7 amended: after one broadcast the registry holds exactly the
connections whose metadata send succeeded — a metadata-send failure prunes
the connection, which then receives no audio and no subsequent broadcasts —
while an audio-send failure is only logged and the connection stays
registered; failures are non-fatal: every remaining subscriber whose sends
succeed receives the delivery. -/
theorem C7_prune_on_meta_failure (clients : List Conn) (c : Conn) :
    (c ∈ registryAfterBroadcast clients ↔ c ∈ clients ∧ c.metaOk = true) ∧
    (c.metaOk = false → c ∉ registryAfterBroadcast clients ∧ c ∉ audioRecipients clients) ∧
    (c ∈ clients → c.metaOk = true → c.audioOk = true → c ∈ audioRecipients clients) := by
  refine ⟨?_, ?_, ?_⟩
  · simp [registryAfterBroadcast, metaSurvivors, List.mem_filter]
  · intro hmeta
    constructor
    · simp [registryAfterBroadcast, metaSurvivors, List.mem_filter, hmeta]
    · simp [audioRecipients, metaSurvivors, List.mem_filter, hmeta]
  · intro hc hmeta haudio
    simp [audioRecipients, metaSurvivors, List.mem_filter, hc, hmeta, haudio]

theorem C7_prune_on_meta_failure_witness :
    (⟨1, true, true⟩ : Conn) ∈ audioRecipients [⟨1, true, true⟩, ⟨3, false, true⟩] :=
  (C7_prune_on_meta_failure [⟨1, true, true⟩, ⟨3, false, true⟩] ⟨1, true, true⟩).2.2
    (by decide) (by decide) (by decide)

/-- C8: evaluating the worker at the failing input — empty translated text,
`SEND_WS_AUDIO` on, one live subscriber, no audio bytes produced — the code
still invokes the synthesis provider (`stream_pcm` at line 196 has no guard
on the text) and still broadcasts the metadata record; only the audio send
is skipped for lack of bytes.  This contradicts the spec's requirement that
synthesizing an empty string be short-circuited (skip synthesis/broadcast). -/
theorem C8_empty_text_not_short_circuited :
    runTtsJob true [] [⟨1, true, true⟩] 0
      = ⟨true, true, false⟩ := by
  decide

/-- C9 counterexample: a handshake with `targets = ["hi-IN", "ta-IN"]` and
no `target` field dispatches segments only for `"hi-IN"`; the second listed
target is never translated, synthesized or delivered, because line 78 of
pipeline.py slices `targets[:1]`. -/
theorem C9_counterexample :
    sessionDispatchTargets none ["hi-IN", "ta-IN"] = ["hi-IN"] ∧
    "ta-IN" ∉ sessionDispatchTargets none ["hi-IN", "ta-IN"] := by
  decide

/-- C9 amended: each session dispatches segments for exactly one target
language — the `target` field when present and non-empty, otherwise the
first element of `targets`, otherwise the configured default — never for
the remaining elements of the `targets` list. -/
theorem C9_single_target_dispatch (mt : Option String) (mts : List String)
    (t : String) (rest : List String) :
    sessionDispatchTargets none (t :: rest) = [t] ∧
    sessionDispatchTargets none [] = [TARGET_LANG] ∧
    (∀ s : String, s ≠ "" → sessionDispatchTargets (some s) mts = [s]) ∧
    (sessionDispatchTargets mt mts).length = 1 := by
  refine ⟨rfl, rfl, ?_, rfl⟩
  intro s hs
  simp [sessionDispatchTargets, resolveTarget, hs]

theorem C9_single_target_dispatch_witness :
    sessionDispatchTargets (some "ta-IN") ["hi-IN"] = ["ta-IN"] :=
  (C9_single_target_dispatch none ["hi-IN"] "x" []).2.2.1 "ta-IN" (by decide)

/-- C4 counterexample: the claim quantifies over every glossary holding a
term and a longer term sharing it as a prefix.  For the glossary
`["A", "AB"]` (`"A"` a prefix of `"AB"`) and input `"AB"`, longest-first
protection first maps `"AB"` to `__GLOSSARY_0__`, but then the pass for the
shorter term `"A"` rewrites the `A` inside that placeholder, so with an
identity provider the restored output is the literal `"__GLOSSARY_0__"`,
which does not contain the longer term at all. -/
theorem C4_counterexample :
    List.isPrefixOf "A".toList "AB".toList = true ∧
    containsSub "AB".toList "AB".toList = true ∧
    translate_texts ["AB".toList] ["A".toList, "AB".toList] (fun ts => ts.map some)
      = ["__GLOSSARY_0__".toList] ∧
    containsSub "AB".toList "__GLOSSARY_0__".toList = false := by
  decide

/-- C4 amended: overlap-safety does not hold for arbitrary prefix-sharing
glossaries (replacement passes can interact with placeholder text, as the
counterexample shows); what holds is the spec's testable instance: with
terms `["New York", "New York City"]` and input
`"I live in New York City."`, protection followed by restoration under an
identity provider returns the input verbatim, so the output contains the
literal substring `"New York City"`, with the shorter term never
substituted inside the longer one. -/
theorem C4_spec_example_roundtrip :
    translate_texts ["I live in New York City.".toList]
        ["New York".toList, "New York City".toList] (fun ts => ts.map some)
      = ["I live in New York City.".toList] ∧
    containsSub "New York City".toList "I live in New York City.".toList = true := by
  decide

/-- C5 counterexample: the claim quantifies over every successful provider
response.  A 200-status list payload whose single item lacks a
`translations` entry is accepted without raising, but the comprehension
drops the item: for the one-element input `["hello"]` the function returns
the empty list — not the same length as the input. -/
theorem C5_counterexample :
    translate_texts ["hello".toList] []
        (fun ts => ts.map (fun _ => (none : Option (List Char)))) = [] ∧
    (translate_texts ["hello".toList] []
        (fun ts => ts.map (fun _ => (none : Option (List Char))))).length
      ≠ (["hello".toList] : List (List Char)).length := by
  decide

/-- `filterMap id` over a list of options that are all `some` is the list of
their values. -/
theorem filterMap_id_of_all_some {α : Type} (l : List (Option α)) (d : α)
    (h : ∀ x ∈ l, x.isSome = true) : l.filterMap id = l.map (fun x => x.getD d) := by
  induction l with
  | nil => rfl
  | cons a t ih =>
    have ha : a.isSome = true := h a (List.mem_cons_self a t)
    have ht : ∀ x ∈ t, x.isSome = true := fun x hx => h x (List.mem_cons_of_mem a hx)
    cases a with
    | none => simp at ha
    | some v => simp [List.filterMap_cons, ih ht]

/-- C5 amended: whenever the parsed provider response carries exactly one
`translations`-bearing item per input text, `translate_texts` returns one
restored translation per input, in response order — same length and order
as the input list; response items lacking a `translations` entry are
silently dropped instead of raising, which is what breaks the unconditional
claim. -/
theorem C5_length_order (texts glossary : List (List Char))
    (provider : List (List Char) → List (Option (List Char)))
    (hlen : (provider (texts.map (protectText (placeholderMap glossary)))).length
      = texts.length)
    (hall : ∀ x ∈ provider (texts.map (protectText (placeholderMap glossary))),
      x.isSome = true) :
    (translate_texts texts glossary provider).length = texts.length ∧
    translate_texts texts glossary provider
      = (provider (texts.map (protectText (placeholderMap glossary)))).map
          (fun x => restoreText (placeholderMap glossary) (x.getD [])) := by
  have hfm := filterMap_id_of_all_some _ ([] : List Char) hall
  constructor
  · simp [translate_texts, hfm, hlen]
  · simp [translate_texts, hfm]

theorem C5_length_order_witness :
    (translate_texts ["hi".toList] [] (fun ts => ts.map some)).length = 1 :=
  (C5_length_order ["hi".toList] [] (fun ts => ts.map some) (by decide) (by decide)).1

end RTApp
